import Mathlib

/-!
Verification of the spawnexec process-execution library (Go) against its
natural-language specification, via a shallow embedding in Lean 4.

Bytes are modelled as `Nat` values, byte slices as `List Nat`, and Go
strings as Lean `String`s (converted to byte lists where byte-level
operations matter).  OS effects (stat, wait4, kill, posix_spawn, pipe I/O)
are external collaborators of the library and are passed in as explicit
oracle arguments, so every definition stays executable.
-/

namespace Spawnexec

/-! ## OutputCapture: `prefixSuffixSaver` (src/lookpath.go) -/

/-- State of the Go `prefixSuffixSaver` struct: capacity `N`, the retained
prefix, the suffix ring buffer (`[]byte`, nil iff empty), the ring write
offset `suffixOff`, and the dropped-byte counter `skipped`. -/
structure PrefixSuffixSaver where
  N : Nat
  prefixB : List Nat
  suffix : List Nat
  suffixOff : Nat
  skipped : Nat
deriving Repr, DecidableEq

/-- `prefixSuffixSaver.fill`: append to `dst` from `p` until `dst` holds
`N` bytes; returns the new `dst` and the remaining input. -/
def pssFill (N : Nat) (dst p : List Nat) : List Nat × List Nat :=
  if N - dst.length > 0 then
    let add := min p.length (N - dst.length)
    (dst ++ p.take add, p.drop add)
  else
    (dst, p)

/-- Overwrite `l` in place starting at offset `off` with the bytes of `p`
(the effect of Go's `copy(l[off:], p)` when `off + p.length ≤ l.length`). -/
def listOverwrite (l : List Nat) (off : Nat) (p : List Nat) : List Nat :=
  l.take off ++ p ++ l.drop (off + p.length)

/-- The ring-overwrite loop at the end of `prefixSuffixSaver.Write`:
repeatedly `copy(w.suffix[w.suffixOff:], p)`, advancing and wrapping
`suffixOff`.  `fuel` bounds the number of iterations so the recursion is
structural; each iteration consumes at least one byte of `p`, so
`fuel = p.length` (as used by `ringWrite`) never runs out.  The `n = 0`
exit is unreachable from `pssWrite`, which only enters the loop with a
full, positive-capacity suffix buffer; in Go that state would spin. -/
def ringWriteAux (N : Nat) : Nat → List Nat → Nat → List Nat →
    List Nat × Nat
  | _, sfx, off, [] => (sfx, off)
  | 0, sfx, off, _ :: _ => (sfx, off)
  | fuel + 1, sfx, off, b :: rest =>
    let q := b :: rest
    let n := min (sfx.length - off) q.length
    if n = 0 then (sfx, off)
    else
      ringWriteAux N fuel (listOverwrite sfx off (q.take n))
        (if off + n = N then 0 else off + n) (q.drop n)

def ringWrite (N : Nat) (sfx : List Nat) (off : Nat) (p : List Nat) :
    List Nat × Nat :=
  ringWriteAux N p.length sfx off p

/-- `prefixSuffixSaver.Write`: fill the prefix, count (only) the per-write
overage beyond `N` as skipped, fill then ring-overwrite the suffix.
Returns the new state, the reported byte count `n`, and the reported
error (always `none`, mirroring Go's `return lenp, nil`). -/
def pssWrite (w : PrefixSuffixSaver) (p : List Nat) :
    PrefixSuffixSaver × Nat × Option Unit :=
  let lenp := p.length
  let r1 := pssFill w.N w.prefixB p
  let pfx := r1.1
  let p1 := r1.2
  let overage := p1.length - w.N
  let p2 := p1.drop overage
  let skipped' := w.skipped + overage
  let r2 := pssFill w.N w.suffix p2
  let sfx1 := r2.1
  let p3 := r2.2
  let r3 := ringWrite w.N sfx1 w.suffixOff p3
  ({ N := w.N, prefixB := pfx, suffix := r3.1, suffixOff := r3.2,
     skipped := skipped' }, lenp, none)

/-- The Go helper `itoa` from src/lookpath.go: decimal digits of `i`
accumulated from the least significant end; returns `""` for `0`.
`fuel` makes the recursion structural; each step divides `i` by 10, so
`fuel = i` (as used by `itoa`) never runs out. -/
def itoaAux : Nat → Nat → List Char → List Char
  | _, 0, acc => acc
  | 0, _ + 1, acc => acc
  | fuel + 1, i + 1, acc =>
    itoaAux fuel ((i + 1) / 10) (Char.ofNat (48 + (i + 1) % 10) :: acc)

def itoa (i : Nat) : String := String.mk (itoaAux i i [])

/-- Bytes of a pure-ASCII Lean string, as Go would see them. -/
def strBytes (s : String) : List Nat := s.data.map Char.toNat

/-- `prefixSuffixSaver.Bytes`: prefix alone if the suffix is nil; prefix
then suffix if nothing was counted skipped; otherwise prefix, the
"omitting K bytes" marker, and the suffix unrolled from `suffixOff`. -/
def pssBytes (w : PrefixSuffixSaver) : List Nat :=
  if w.suffix = [] then w.prefixB
  else if w.skipped = 0 then w.prefixB ++ w.suffix
  else
    w.prefixB ++ strBytes "\n... omitting " ++ strBytes (itoa w.skipped) ++
      strBytes " bytes ...\n" ++
      w.suffix.drop w.suffixOff ++ w.suffix.take w.suffixOff

/-- A fresh saver of capacity `N` (Go zero value with `N` set). -/
def pssNew (N : Nat) : PrefixSuffixSaver :=
  { N := N, prefixB := [], suffix := [], suffixOff := 0, skipped := 0 }

/-- Feed a sequence of writes into a saver, keeping only the state. -/
def pssWriteAll (w : PrefixSuffixSaver) : List (List Nat) → PrefixSuffixSaver
  | [] => w
  | p :: ps => pssWriteAll (pssWrite w p).1 ps

/-! ## PathResolver: `LookPath` (src/lookpath.go) and `isExecutable`
(errors file).  The filesystem stat collaborator is an oracle
`fs : String → Option FileMode`; `none` is a stat error. -/

/-- The slice of Go `os.FileMode` consulted by the resolver: directory
bit, regular-file bit, and the permission bits (`mode & 0777`). -/
structure FileMode where
  isDir : Bool
  isRegular : Bool
  perm : Nat
deriving Repr, DecidableEq

/-- Underlying causes carried by the resolver's `*Error` values. -/
inductive LookupCause where
  /-- an `os.Stat` failure (file absent etc.) -/
  | statErr
  /-- `os.ErrPermission` (directory, or no execute bit) -/
  | permission
  /-- `ErrDot`: resolved relative to the current directory -/
  | errDot
  /-- `ErrNotFound`: not found in `$PATH` -/
  | errNotFound
deriving Repr, DecidableEq

/-- The `Error` struct: file name plus underlying cause. -/
structure LookupError where
  Name : String
  Err : LookupCause
deriving Repr, DecidableEq

/-- `findExecutable`: stat the file; a directory or a mode without any
execute bit is `os.ErrPermission`; otherwise success. -/
def findExecutable (fs : String → Option FileMode) (file : String) :
    Option LookupCause :=
  match fs file with
  | none => some .statErr
  | some fi =>
    if fi.isDir then some .permission
    else if fi.perm &&& 0o111 ≠ 0 then none
    else some .permission

/-- `isExecutable` (errors file): stat succeeds, the file is regular, and
an execute bit is set. -/
def isExecutable (fs : String → Option FileMode) (path : String) : Bool :=
  match fs path with
  | none => false
  | some fi => fi.isRegular && fi.perm &&& 0o111 ≠ 0

/-- Whether a string contains a `/` (Go `strings.Contains(file, "/")`). -/
def containsSlash (s : String) : Bool := s.data.any (fun c => c = '/')

/-- Split a list of characters on a separator character, keeping empty
fields (the semantics of Go `strings.Split` for a one-character
separator). -/
def splitOnChar (sep : Char) : List Char → List (List Char)
  | [] => [[]]
  | c :: rest =>
    match splitOnChar sep rest with
    | [] => [[]]
    | h :: t => if c = sep then [] :: h :: t else (c :: h) :: t

/-- `filepath.SplitList` on Unix: empty PATH gives no entries; otherwise
split on `:`. -/
def splitList (path : String) : List String :=
  if path = "" then []
  else (splitOnChar ':' path.data).map String.mk

/-- `filepath.IsAbs` on Unix: the path starts with `/`.  (The helper
`isAbs` in the spawn files tests the same condition.) -/
def isAbs (path : String) : Bool :=
  match path.data with
  | '/' :: _ => true
  | _ => false

/-- `filepath.Join(dir, file)` as used by `LookPath`, modelled at the
interface of the external path/filepath collaborator for the non-empty
`dir` the loop always supplies: the two elements joined by `/`.  (Join's
lexical cleaning neither affects absoluteness nor matters against the
abstract filesystem oracle.) -/
def filepathJoin (dir file : String) : String := dir ++ "/" ++ file

/-- The PATH-scanning loop of `LookPath`: empty entry means `.`, join and
test with `findExecutable`; the first passing candidate is returned, with
`ErrDot` when it is relative and additionally passes `isExecutable`;
exhaustion is `ErrNotFound`.  The result pairs the returned path with the
returned error, exactly as the Go function does. -/
def lookPathLoop (fs : String → Option FileMode) (file : String) :
    List String → String × Option LookupError
  | [] => ("", some ⟨file, .errNotFound⟩)
  | dir :: rest =>
    let dir' := if dir = "" then "." else dir
    let path := filepathJoin dir' file
    match findExecutable fs path with
    | none =>
      if ¬ isAbs path then
        if isExecutable fs path then (path, some ⟨file, .errDot⟩)
        else (path, none)
      else (path, none)
    | some _ => lookPathLoop fs file rest

/-- `LookPath`: a name containing `/` is tried directly; otherwise the
PATH entries are scanned in order. -/
def lookPath (fs : String → Option FileMode) (pathEnv file : String) :
    String × Option LookupError :=
  if containsSlash file then
    match findExecutable fs file with
    | none => (file, none)
    | some e => ("", some ⟨file, e⟩)
  else
    lookPathLoop fs file (splitList pathEnv)

/-- The joined candidate `LookPath` tests for a PATH entry `dir` (empty
entry meaning the current directory). -/
def candidate (file dir : String) : String :=
  filepathJoin (if dir = "" then "." else dir) file

/-! ## Wait-status decoding.

The raw wait status is a `Nat` (the kernel's `uint32` value).  The
accessor functions mirror the BSD/darwin `WaitStatus` methods of the
external `golang.org/x/sys/unix` collaborator (`syscall_bsd.go`,
constants `mask = 0x7F`, `core = 0x80`, `shift = 8`, `exited = 0`,
`stopped = 0x7F`; `Stopped`/`Continued` compare the stop-signal byte
`Signal(w >> shift)` against `SIGSTOP`, which is `0x11` on darwin),
which the in-repo `ProcessState` methods delegate to. -/

def wsExited (w : Nat) : Bool := w &&& 0x7F = 0

def wsExitStatus (w : Nat) : Int :=
  if w &&& 0x7F ≠ 0 then -1 else Int.ofNat (w >>> 8)

def wsSignaled (w : Nat) : Bool :=
  w &&& 0x7F ≠ 0x7F && w &&& 0x7F ≠ 0

def wsSignal (w : Nat) : Int :=
  let sig := w &&& 0x7F
  if sig = 0x7F ∨ sig = 0 then -1 else Int.ofNat sig

def wsCoreDump (w : Nat) : Bool := wsSignaled w && w &&& 0x80 ≠ 0

def wsIsStopped (w : Nat) : Bool := w &&& 0x7F = 0x7F && w >>> 8 ≠ 0x11

def wsContinued (w : Nat) : Bool := w &&& 0x7F = 0x7F && w >>> 8 = 0x11

def wsStopSignal (w : Nat) : Int :=
  if wsIsStopped w then Int.ofNat ((w >>> 8) &&& 0xFF) else -1

/-! ## ProcessHandle and ExitStatusDecoder (process file). -/

/-- The `Process` struct: just the stored process id. -/
structure Process where
  Pid : Int
deriving Repr, DecidableEq

/-- `ProcessState`: process id and raw wait status.  (The resource-usage
snapshot is carried alongside in Go but consulted by no claim; it is not
modelled.) -/
structure ProcessState where
  pid : Int
  status : Nat
deriving Repr, DecidableEq

/-- An `os.Signal` argument: either a `syscall.Signal` number, or some
other implementation of the interface (whose type assertion in `Signal`
fails). -/
inductive OsSignal where
  | syscallSignal (n : Int)
  | otherSignal
deriving Repr, DecidableEq

/-- Errors produced by the `Process` methods. -/
inductive ProcErr where
  /-- `os.ErrInvalid` -/
  | invalid
  /-- an errno from the `unix.Kill` / `unix.Wait4` collaborator -/
  | osError (errno : Nat)
deriving Repr, DecidableEq

/-- `Process.Signal`: invalid on a non-positive id or a non-`syscall`
signal value; otherwise the outcome of the `unix.Kill` collaborator
(`kill`, an oracle returning an errno on failure). -/
def procSignal (p : Process) (sig : OsSignal)
    (kill : Int → Int → Option Nat) : Option ProcErr :=
  if p.Pid ≤ 0 then some .invalid
  else
    match sig with
    | .otherSignal => some .invalid
    | .syscallSignal s => (kill p.Pid s).map .osError

/-- `Process.Kill`: `Signal(syscall.SIGKILL)` (SIGKILL = 9). -/
def procKill (p : Process) (kill : Int → Int → Option Nat) :
    Option ProcErr :=
  procSignal p (.syscallSignal 9) kill

/-- `Process.Release`: set the stored id to the sentinel `-1` and return
a nil error.  This is the only method that changes the stored id. -/
def procRelease (p : Process) : Process × Option ProcErr :=
  ({ p with Pid := -1 }, none)

/-- `Process.Wait`: invalid on a non-positive id; otherwise reap through
the `unix.Wait4` collaborator (`os`, an oracle yielding either an errno
or the reaped pid and raw status) and package the `ProcessState`.  Note
that the stored id of `p` is not modified. -/
def procWait (p : Process) (os : Except Nat (Int × Nat)) :
    Except ProcErr ProcessState :=
  if p.Pid ≤ 0 then .error .invalid
  else
    match os with
    | .error errno => .error (.osError errno)
    | .ok (pid, status) => .ok { pid := pid, status := status }

/-- `ProcessState.Exited`. -/
def psExited (p : ProcessState) : Bool := wsExited p.status

/-- `ProcessState.Success`: raw `status.ExitStatus() == 0`. -/
def psSuccess (p : ProcessState) : Bool := wsExitStatus p.status = 0

/-- `ProcessState.ExitCode`: `-1` unless the process exited normally. -/
def psExitCode (p : ProcessState) : Int :=
  if ¬ wsExited p.status then -1 else wsExitStatus p.status

/-- Decimal rendering of a non-negative count, as `fmt`'s `%d` produces
(`"0"` for zero — unlike the Go helper `itoa`, which gives `""`).
`fuel = n` suffices exactly as in `itoa`. -/
def decimalAux : Nat → Nat → List Char → List Char
  | _, 0, acc => acc
  | 0, _ + 1, acc => acc
  | fuel + 1, i + 1, acc =>
    decimalAux fuel ((i + 1) / 10) (Char.ofNat (48 + (i + 1) % 10) :: acc)

def decimal (n : Nat) : String :=
  if n = 0 then "0" else String.mk (decimalAux n n [])

/-- `%d` of the `int` exit code (non-negative in every reachable call,
but total for completeness). -/
def decimalInt (i : Int) : String :=
  if i < 0 then "-" ++ decimal i.natAbs else decimal i.toNat

/-- `ProcessState.String`: the human-readable rendering.  `signame`
abstracts `syscall.Signal.String` of the external syscall collaborator
(signal number to name).  The Go receiver-nil case does not arise in the
value model. -/
def psString (signame : Int → String) (p : ProcessState) : String :=
  let status := p.status
  if wsExited status then
    let code := wsExitStatus status
    if code = 0 then "exit status 0"
    else "exit status " ++ decimalInt code
  else if wsSignaled status then
    let s := signame (wsSignal status)
    let s := if wsCoreDump status then s ++ " (core dumped)" else s
    "signal: " ++ s
  else if wsIsStopped status then
    "stop signal: " ++ signame (wsStopSignal status)
  else if wsContinued status then
    "continued"
  else
    "unknown status: " ++ decimal status

/-! ## CommandBuilder and lifecycle: `Cmd`, `Command`, `Start`, `Wait`,
`Run`, `Output`, `CombinedOutput`.

The `Cmd` model keeps the fields the lifecycle logic reads or writes.
`Stdin`/`Stdout`/`Stderr` are modelled by presence only (`Option Unit`):
the lifecycle guards test them against nil, while the bytes moving
through them are supplied by explicit oracles.  The effectful middle of
`Start` (pipe allocation, file actions, `posix_spawn` / `os/exec`) is
collapsed into a `spawn` oracle giving either an errno or the new pid;
`ctx` is not modelled (it is nil on every `Cmd` built by `Command`). -/

structure Cmd where
  Path : String
  Args : List String
  Stdout : Option Unit
  Stderr : Option Unit
  Process : Option Process
  ProcessState : Option ProcessState
  lookPathErr : Option LookupError
  finished : Bool
  /-- fallback variant only: the wrapped `os/exec` command -/
  osCmd : Option Unit
deriving Repr, DecidableEq

/-- Drop trailing `/` characters (the first loop of `filepath.Base`). -/
def dropTrailingSlashes (l : List Char) : List Char :=
  ((l.reverse.dropWhile (fun c => c = '/'))).reverse

/-- The part after the last `/`, or the whole list if there is none
(the `lastSlash` step of `filepath.Base`). -/
def afterLastSlash (l : List Char) : List Char :=
  ((l.reverse.takeWhile (fun c => c ≠ '/'))).reverse

/-- `filepath.Base` on Unix (empty path is `.`; all-slash path is `/`;
the volume-name step is vacuous on Unix). -/
def filepathBase (path : String) : String :=
  if path = "" then "."
  else
    let p := afterLastSlash (dropTrailingSlashes path.data)
    if p = [] then "/" else String.mk p

/-- `Command(name, arg...)`: `Path` and `Args[0]` are `name`; when
`filepath.Base(name) == name`, the resolver runs eagerly and either the
failure is stored on `lookPathErr` or `Path` is overwritten with the
resolved path.  `fs`/`pathEnv` are the resolver's stat and environment
collaborators. -/
def Command (fs : String → Option FileMode) (pathEnv : String)
    (name : String) (args : List String) : Cmd :=
  let cmd : Cmd :=
    { Path := name, Args := name :: args, Stdout := none, Stderr := none,
      Process := none, ProcessState := none, lookPathErr := none,
      finished := false, osCmd := none }
  if filepathBase name = name then
    match lookPath fs pathEnv name with
    | (_, some e) => { cmd with lookPathErr := some e }
    | (lp, none) => { cmd with Path := lp }
  else cmd

/-- A copy-goroutine outcome (an abstract I/O error). -/
inductive CopyError where
  | ioErr (code : Nat)
deriving Repr, DecidableEq

/-- The error values the lifecycle operations return (one type, as Go's
`error` is). -/
inductive ExecErr where
  /-- a stored resolver failure surfaced by `Start` -/
  | lookupE (e : LookupError)
  /-- an `errors.New` misuse error, carrying its exact message -/
  | misuse (msg : String)
  /-- `&Error{Name: c.Path, Err: errno}` from the creation primitive -/
  | spawnE (name : String) (errno : Nat)
  /-- an error propagated from `Process.Wait` -/
  | reapE (e : ProcErr)
  /-- `*ExitError` (its `ProcessState` pointer; `Stderr` starts empty) -/
  | exitE (st : Option ProcessState)
  /-- a copy-goroutine error surfaced by `Wait` -/
  | copyE (e : CopyError)
  /-- fallback `Wait`: `osCmd` nil or of the wrong type -/
  | internalE (msg : String)
  /-- fallback: a non-`ExitError` error from `os/exec` -/
  | osExecE (errno : Nat)
deriving Repr, DecidableEq

/-- `Cmd.Start`, darwin variant: surface a stored resolver failure,
reject a second start and a finished spec, then run the effectful
creation (`spawn` oracle); success records the new `Process`. -/
def cmdStart (c : Cmd) (spawn : Except Nat Int) : Cmd × Option ExecErr :=
  if c.lookPathErr.isSome then (c, c.lookPathErr.map .lookupE)
  else if c.Process.isSome then (c, some (.misuse "exec: already started"))
  else if c.finished then (c, some (.misuse "exec: already finished"))
  else
    match spawn with
    | .error errno => (c, some (.spawnE c.Path errno))
    | .ok pid => ({ c with Process := some { Pid := pid } }, none)

/-- `Cmd.Start`, fallback (non-darwin) variant: identical guards, then
delegate creation to `os/exec` (`spawn` oracle), recording the wrapped
command and the new `Process`. -/
def cmdStartFallback (c : Cmd) (spawn : Except Nat Int) :
    Cmd × Option ExecErr :=
  if c.lookPathErr.isSome then (c, c.lookPathErr.map .lookupE)
  else if c.Process.isSome then (c, some (.misuse "exec: already started"))
  else if c.finished then (c, some (.misuse "exec: already finished"))
  else
    match spawn with
    | .error errno => (c, some (.osExecE errno))
    | .ok pid =>
      ({ c with Process := some { Pid := pid }, osCmd := some () }, none)

/-- The copy-error selection loop of `Wait`: the first non-nil entry of
the shared `goroutineErr` collection. -/
def firstSome : List (Option CopyError) → Option CopyError
  | [] => none
  | some e :: _ => some e
  | none :: rest => firstSome rest

/-- `Cmd.Wait`, darwin variant: misuse guards, mark finished, reap
through `Process.Wait` (`os` oracle), record the `ProcessState`, close
the parent pipe ends (an effect, not modelled), read the copy-goroutine
outcomes (`goroutineErr` oracle), and return with the precedence
reap error > exit failure > copy error. -/
def cmdWait (c : Cmd) (os : Except Nat (Int × Nat))
    (goroutineErr : List (Option CopyError)) : Cmd × Option ExecErr :=
  match c.Process with
  | none => (c, some (.misuse "exec: not started"))
  | some p =>
    if c.finished then (c, some (.misuse "exec: Wait was already called"))
    else
      let c1 := { c with finished := true }
      match procWait p os with
      | .error e => (c1, some (.reapE e))
      | .ok state =>
        let c2 := { c1 with ProcessState := some state }
        let copyE := firstSome goroutineErr
        if ¬ psSuccess state then (c2, some (.exitE (some state)))
        else
          match copyE with
          | some e => (c2, some (.copyE e))
          | none => (c2, none)

/-- The outcome of the wrapped `os/exec` `Wait` in the fallback variant:
its (converted) `ProcessState`, if any, and its error shape. -/
inductive OsExecWaitOutcome where
  | exitError
  | otherError (errno : Nat)
deriving Repr, DecidableEq

/-- `Cmd.Wait`, fallback variant: misuse guards, mark finished, require
the wrapped command, adopt its converted `ProcessState`, and map its
`exec.ExitError` to this package's `ExitError`. -/
def cmdWaitFallback (c : Cmd) (opState : Option ProcessState)
    (osErr : Option OsExecWaitOutcome) : Cmd × Option ExecErr :=
  match c.Process with
  | none => (c, some (.misuse "exec: not started"))
  | some _ =>
    if c.finished then (c, some (.misuse "exec: Wait was already called"))
    else
      let c1 := { c with finished := true }
      match c1.osCmd with
      | none =>
        (c1, some (.internalE "exec: internal error: osCmd is nil or wrong type"))
      | some _ =>
        let c2 :=
          match opState with
          | some st => { c1 with ProcessState := some st }
          | none => c1
        match osErr with
        | some .exitError => (c2, some (.exitE c2.ProcessState))
        | some (.otherError errno) => (c2, some (.osExecE errno))
        | none => (c2, none)

/-- `Cmd.Run` = `Start` then `Wait` (darwin variant). -/
def cmdRun (c : Cmd) (spawn : Except Nat Int) (os : Except Nat (Int × Nat))
    (goroutineErr : List (Option CopyError)) : Cmd × Option ExecErr :=
  let r := cmdStart c spawn
  match r.2 with
  | some e => (r.1, some e)
  | none => cmdWait r.1 os goroutineErr

/-- What the child wrote to the streams `Output` installs during `Run`:
the bytes delivered to the fresh stdout buffer and the write chunks
delivered to the stderr sink.  When the process never starts, both are
empty in any faithful instantiation. -/
structure RunIO where
  stdoutBytes : List Nat
  stderrChunks : List (List Nat)
deriving Repr, DecidableEq

/-- `Cmd.Output`: fail if `Stdout` is set; install a fresh stdout buffer;
when `Stderr` is unset, install a `prefixSuffixSaver` of capacity
`32 << 10`; run; if the run failed with an `*ExitError` and the saver was
installed, populate its `Stderr` with the saver's `Bytes()`.  Returns the
stdout bytes, the error, and the `Stderr` field of the returned
`ExitError` (empty when none was populated). -/
def cmdOutput (c : Cmd) (spawn : Except Nat Int)
    (os : Except Nat (Int × Nat)) (goroutineErr : List (Option CopyError))
    (io : RunIO) : List Nat × Option ExecErr × List Nat :=
  if c.Stdout.isSome then ([], some (.misuse "exec: Stdout already set"), [])
  else
    match (cmdRun
        { c with Stdout := some (),
                 Stderr := if c.Stderr = none then some () else c.Stderr }
        spawn os goroutineErr).2 with
    | some (.exitE st) =>
      if c.Stderr = none then
        (io.stdoutBytes, some (.exitE st),
          pssBytes (pssWriteAll (pssNew (32 <<< 10)) io.stderrChunks))
      else (io.stdoutBytes, some (.exitE st), [])
    | other => (io.stdoutBytes, other, [])

/-- `Cmd.CombinedOutput`: fail if `Stdout` or `Stderr` is set; bind both
to one fresh buffer (`combined` holds what the child wrote to it); the
run's error is returned unchanged — no capture is attached. -/
def cmdCombinedOutput (c : Cmd) (spawn : Except Nat Int)
    (os : Except Nat (Int × Nat)) (goroutineErr : List (Option CopyError))
    (combined : List Nat) : List Nat × Option ExecErr :=
  if c.Stdout.isSome then ([], some (.misuse "exec: Stdout already set"))
  else if c.Stderr.isSome then ([], some (.misuse "exec: Stderr already set"))
  else
    (combined,
      (cmdRun { c with Stdout := some (), Stderr := some () }
        spawn os goroutineErr).2)

/-! ## Theorems settling the claims. -/

/-- Claim C1 (code bug): the spec requires the bounded capture's
dropped-byte counter to equal the number of bytes retained in neither the
prefix nor the suffix, with an "omitting K bytes" marker rendered iff any
byte was dropped.  The `Write` ring-overwrite loop fails to count the
suffix bytes it overwrites (upstream os/exec increments `skipped` there),
so with capacity 2 and writes "abcd" then "ef" the bytes "cd" are dropped
yet `skipped` stays 0 and `Bytes` renders "abef" with no marker; with
writes "ab", "cdefg", "hi" five bytes are dropped but only 3 counted. -/

theorem c1_capture_undercount :
    ((pssWriteAll (pssNew 2) [[97, 98, 99, 100], [101, 102]]).skipped = 0 ∧
      pssBytes (pssWriteAll (pssNew 2) [[97, 98, 99, 100], [101, 102]]) =
        [97, 98, 101, 102]) ∧
    (pssWriteAll (pssNew 2) [[97, 98], [99, 100, 101, 102, 103], [104, 105]]).skipped = 3 := by
  decide

/-- Claim C2: in `Wait` after a successful `Start`, a reap-level failure
is returned in preference to everything; an unsuccessful exit status is
returned (as `ExitError`) even when a copy-task error was recorded; and a
copy-task error is returned only when the reap succeeded and the exit
status was successful. -/

theorem c2_wait_precedence (c : Cmd) (p : Process)
    (os : Except Nat (Int × Nat)) (gerrs : List (Option CopyError))
    (hp : c.Process = some p) (hf : c.finished = false) :
    (∀ e, procWait p os = .error e →
      (cmdWait c os gerrs).2 = some (.reapE e)) ∧
    (∀ st ce, procWait p os = .ok st → psSuccess st = false →
      firstSome gerrs = some ce →
      (cmdWait c os gerrs).2 = some (.exitE (some st))) ∧
    (∀ ce, (cmdWait c os gerrs).2 = some (.copyE ce) →
      ∃ st, procWait p os = .ok st ∧ psSuccess st = true ∧
        firstSome gerrs = some ce) := by
  unfold cmdWait
  rw [hp]
  simp only [hf, Bool.false_eq_true, if_false]
  refine ⟨fun e he => ?_, fun st ce hst hsucc hce => ?_, fun ce hce => ?_⟩
  · rw [he]
  · rw [hst]
    simp [hsucc]
  · revert hce
    cases hpw : procWait p os with
    | error e => simp
    | ok st =>
      by_cases hs : psSuccess st <;> simp [hs]
      cases hfs : firstSome gerrs <;> simp

/-- Witness for C2: a started command whose reap reports exit status
256 (code 1) with a recorded copy error returns the `ExitError`. -/

theorem c2_witness :
    (cmdWait
      { Path := "/bin/false", Args := ["false"], Stdout := none,
        Stderr := none, Process := some { Pid := 5 }, ProcessState := none,
        lookPathErr := none, finished := false, osCmd := none }
      (.ok (5, 256)) [some (.ioErr 3)]).2 =
      some (.exitE (some { pid := 5, status := 256 })) :=
  (c2_wait_precedence _ { Pid := 5 } (.ok (5, 256)) [some (.ioErr 3)]
      rfl rfl).2.1 { pid := 5, status := 256 } (.ioErr 3) rfl (by decide) rfl

lemma lookPathLoop_all_fail (fs : String → Option FileMode) (file : String)
    (dirs : List String)
    (h : ∀ d ∈ dirs, findExecutable fs (candidate file d) ≠ none) :
    lookPathLoop fs file dirs = ("", some ⟨file, .errNotFound⟩) := by
  induction dirs with
  | nil => rfl
  | cons d rest ih =>
    cases hfe : findExecutable fs (candidate file d) with
    | none => exact absurd hfe (h d (List.mem_cons_self d rest))
    | some e =>
      simp only [candidate] at hfe
      simp only [lookPathLoop, hfe]
      exact ih fun d' hd' => h d' (List.mem_cons_of_mem d hd')

lemma lookPathLoop_first_pass (fs : String → Option FileMode)
    (file : String) (d : String) (post : List String)
    (hd : findExecutable fs (candidate file d) = none) :
    ∀ pre : List String,
      (∀ d' ∈ pre, findExecutable fs (candidate file d') ≠ none) →
      lookPathLoop fs file (pre ++ d :: post) =
        (candidate file d,
          if isAbs (candidate file d) = false ∧
              isExecutable fs (candidate file d) = true
          then some ⟨file, .errDot⟩ else none) := by
  intro pre
  induction pre with
  | nil =>
    intro _
    have hd' : findExecutable fs (filepathJoin (if d = "" then "." else d) file) = none := hd
    simp only [List.nil_append, lookPathLoop, hd']
    by_cases habs : isAbs (candidate file d)
    · simp only [candidate] at habs
      simp [candidate, habs]
    · simp only [candidate] at habs
      by_cases hex : isExecutable fs (candidate file d)
      · simp only [candidate] at hex
        simp [candidate, habs, hex]
      · simp only [candidate] at hex
        simp [candidate, habs, hex]
  | cons p rest ih =>
    intro hpre
    cases hfe : findExecutable fs (candidate file p) with
    | none => exact absurd hfe (hpre p (List.mem_cons_self p rest))
    | some e =>
      simp only [candidate] at hfe
      simp only [List.cons_append, lookPathLoop, hfe]
      exact ih fun d' hd' => hpre d' (List.mem_cons_of_mem p hd')

/-- Counterexample to claim C3 as stated: a relative candidate that
passes the `findExecutable` test used by the scan (here a FIFO with an
execute bit: not a directory, mode 0111) but is not a regular file is
returned as a plain success with no `ErrDot` marker, because the code
additionally gates `ErrDot` on `isExecutable`. -/

theorem c3_counterexample :
    lookPath
        (fun p => if p = "sub/prog"
          then some { isDir := false, isRegular := false, perm := 0o111 }
          else none)
        "sub" "prog" = ("sub/prog", none) ∧
    findExecutable
        (fun p => if p = "sub/prog"
          then some { isDir := false, isRegular := false, perm := 0o111 }
          else none)
        "sub/prog" = none ∧
    isAbs "sub/prog" = false := by
  refine ⟨by decide, by decide, by decide⟩

/-- Claim C3 (amended): for a name with no path separator, `LookPath`
scans the PATH entries in order (empty entry meaning the current
directory) and returns the first joined candidate passing
`findExecutable`, scanning no further; the `ErrDot` marker accompanies
that candidate exactly when it is not absolute AND additionally passes
the stricter regular-file `isExecutable` check (a relative, non-regular
candidate is returned as a plain success); if no entry passes, the result
is the `ErrNotFound` failure. -/

theorem c3_amended (fs : String → Option FileMode) (pathEnv file : String)
    (hns : containsSlash file = false) :
    ((∀ d ∈ splitList pathEnv, findExecutable fs (candidate file d) ≠ none) →
      lookPath fs pathEnv file = ("", some ⟨file, .errNotFound⟩)) ∧
    (∀ pre d post, splitList pathEnv = pre ++ d :: post →
      (∀ d' ∈ pre, findExecutable fs (candidate file d') ≠ none) →
      findExecutable fs (candidate file d) = none →
      lookPath fs pathEnv file =
        (candidate file d,
          if isAbs (candidate file d) = false ∧
              isExecutable fs (candidate file d) = true
          then some ⟨file, .errDot⟩ else none)) := by
  constructor
  · intro h
    unfold lookPath
    rw [hns]
    simp only [Bool.false_eq_true, if_false]
    exact lookPathLoop_all_fail fs file _ h
  · intro pre d post hsplit hpre hd
    unfold lookPath
    rw [hns]
    simp only [Bool.false_eq_true, if_false]
    rw [hsplit]
    exact lookPathLoop_first_pass fs file d post hd pre hpre

/-- Witness for the amended C3: a regular executable reached through the
relative PATH entry "sub" is returned together with `ErrDot`. -/

theorem c3_witness :
    lookPath
        (fun p => if p = "sub/prog"
          then some { isDir := false, isRegular := true, perm := 0o755 }
          else none)
        "sub" "prog" = ("sub/prog", some ⟨"prog", .errDot⟩) := by
  have h := (c3_amended
      (fun p => if p = "sub/prog"
        then some { isDir := false, isRegular := true, perm := 0o755 }
        else none)
      "sub" "prog" (by decide)).2 [] "sub" [] (by decide)
      (by intro d' hd'; simp at hd') (by decide)
  rw [h]
  decide

/-- Counterexample to claim C4 as stated: reaping through the handle's
`Wait` does not make the stored id a sentinel — `Process.Wait` never
modifies `Pid` (only `Release` does), so after a successful reap of the
handle with id 5 the id is still 5 and `Signal` still attempts delivery
instead of failing with the invalid-handle error. -/

theorem c4_counterexample :
    procWait { Pid := 5 } (.ok (5, 0)) = .ok { pid := 5, status := 0 } ∧
    procSignal { Pid := 5 } (.syscallSignal 15) (fun _ _ => none) = none ∧
    ({ Pid := 5 } : Process).Pid = 5 := ⟨rfl, rfl, rfl⟩

/-- Claim C4 (amended): the stored id becomes the sentinel `-1` via
`Release` (with a nil error); `Wait` leaves the stored id unchanged; and
on a handle whose id is non-positive, `Signal` and `Wait` fail with the
invalid-handle error (`os.ErrInvalid`). -/

theorem c4_amended (p : Process) (sig : OsSignal)
    (kill : Int → Int → Option Nat) (os : Except Nat (Int × Nat)) :
    ((procRelease p).1.Pid = -1 ∧ (procRelease p).2 = none) ∧
    (p.Pid ≤ 0 → procSignal p sig kill = some .invalid) ∧
    (p.Pid ≤ 0 → procWait p os = .error .invalid) := by
  refine ⟨⟨rfl, rfl⟩, fun h => ?_, fun h => ?_⟩
  · simp [procSignal, h]
  · simp [procWait, h]

/-- Witness for the amended C4 at the sentinel handle `Pid = -1`. -/

theorem c4_amended_witness :
    procSignal { Pid := -1 } (.syscallSignal 9) (fun _ _ => none) = some .invalid ∧
    procWait { Pid := -1 } (.error 10) = .error .invalid :=
  ⟨(c4_amended { Pid := -1 } (.syscallSignal 9) (fun _ _ => none) (.error 10)).2.1 (by decide),
   (c4_amended { Pid := -1 } (.syscallSignal 9) (fun _ _ => none) (.error 10)).2.2 (by decide)⟩

lemma cmdStart_ok (c : Cmd) (spawn : Except Nat Int)
    (h : (cmdStart c spawn).2 = none) :
    ∃ pid, spawn = .ok pid ∧ c.lookPathErr = none ∧ c.Process = none ∧
      c.finished = false ∧
      (cmdStart c spawn).1 = { c with Process := some { Pid := pid } } := by
  unfold cmdStart at h ⊢
  by_cases hl : c.lookPathErr.isSome
  · rw [Option.isSome_iff_exists] at hl
    obtain ⟨e, he⟩ := hl
    rw [if_pos (by simp [he])] at h
    rw [he] at h
    simp at h
  · by_cases hps : c.Process.isSome
    · simp [hl, hps] at h
    · by_cases hfin : c.finished
      · simp [hl, hps, hfin] at h
      · cases hsp : spawn with
        | error errno =>
          rw [hsp] at h
          simp [hl, hps, hfin] at h
        | ok pid =>
          refine ⟨pid, rfl, ?_, ?_, ?_, ?_⟩
          · simpa using hl
          · simpa using hps
          · simpa using hfin
          · simp [hl, hps, hfin]

lemma cmdStartFallback_ok (c : Cmd) (spawn : Except Nat Int)
    (h : (cmdStartFallback c spawn).2 = none) :
    ∃ pid, spawn = .ok pid ∧ c.lookPathErr = none ∧ c.Process = none ∧
      c.finished = false ∧
      (cmdStartFallback c spawn).1 =
        { c with Process := some { Pid := pid }, osCmd := some () } := by
  unfold cmdStartFallback at h ⊢
  by_cases hl : c.lookPathErr.isSome
  · rw [Option.isSome_iff_exists] at hl
    obtain ⟨e, he⟩ := hl
    rw [if_pos (by simp [he])] at h
    rw [he] at h
    simp at h
  · by_cases hps : c.Process.isSome
    · simp [hl, hps] at h
    · by_cases hfin : c.finished
      · simp [hl, hps, hfin] at h
      · cases hsp : spawn with
        | error errno =>
          rw [hsp] at h
          simp [hl, hps, hfin] at h
        | ok pid =>
          refine ⟨pid, rfl, ?_, ?_, ?_, ?_⟩
          · simpa using hl
          · simpa using hps
          · simpa using hfin
          · simp [hl, hps, hfin]

lemma cmdWait_started (c : Cmd) (p : Process) (os : Except Nat (Int × Nat))
    (gerrs : List (Option CopyError))
    (hp : c.Process = some p) (hf : c.finished = false) :
    (cmdWait c os gerrs).1.finished = true ∧
    (cmdWait c os gerrs).1.Process = some p := by
  unfold cmdWait
  rw [hp]
  simp only [hf, Bool.false_eq_true, if_false]
  cases procWait p os with
  | error e => simp [hp]
  | ok st =>
    by_cases hs : psSuccess st <;> simp [hs, hp]
    cases firstSome gerrs <;> simp [hp]

lemma cmdWaitFallback_started (c : Cmd) (p : Process)
    (opSt : Option ProcessState) (oErr : Option OsExecWaitOutcome)
    (hp : c.Process = some p) (hf : c.finished = false) :
    (cmdWaitFallback c opSt oErr).1.finished = true ∧
    (cmdWaitFallback c opSt oErr).1.Process = some p := by
  unfold cmdWaitFallback
  rw [hp]
  simp only [hf, Bool.false_eq_true, if_false]
  cases c.osCmd with
  | none => simp [hp]
  | some u =>
    cases opSt <;> cases oErr <;> simp [hp]
    · rename_i o; cases o <;> simp [hp]
    · rename_i o; cases o <;> simp [hp]

/-- Claim C5: on both platform variants, a second `Start` after a
successful `Start` fails with the misuse error "exec: already started";
`Wait` before any successful `Start` fails with "exec: not started"; and
a second `Wait` after a first `Wait` fails with
"exec: Wait was already called". -/

theorem c5_misuse (c : Cmd) (spawn spawn2 : Except Nat Int)
    (os os2 : Except Nat (Int × Nat))
    (gerrs gerrs2 : List (Option CopyError))
    (opSt opSt2 : Option ProcessState)
    (oErr oErr2 : Option OsExecWaitOutcome) :
    ((cmdStart c spawn).2 = none →
      (cmdStart (cmdStart c spawn).1 spawn2).2 =
        some (.misuse "exec: already started")) ∧
    (c.Process = none →
      (cmdWait c os gerrs).2 = some (.misuse "exec: not started")) ∧
    (∀ p, c.Process = some p → c.finished = false →
      (cmdWait (cmdWait c os gerrs).1 os2 gerrs2).2 =
        some (.misuse "exec: Wait was already called")) ∧
    ((cmdStartFallback c spawn).2 = none →
      (cmdStartFallback (cmdStartFallback c spawn).1 spawn2).2 =
        some (.misuse "exec: already started")) ∧
    (c.Process = none →
      (cmdWaitFallback c opSt oErr).2 = some (.misuse "exec: not started")) ∧
    (∀ p, c.Process = some p → c.finished = false →
      (cmdWaitFallback (cmdWaitFallback c opSt oErr).1 opSt2 oErr2).2 =
        some (.misuse "exec: Wait was already called")) := by
  refine ⟨?_, ?_, ?_, ?_, ?_, ?_⟩
  · intro h
    obtain ⟨pid, -, hl, -, -, h1⟩ := cmdStart_ok c spawn h
    rw [h1]
    unfold cmdStart
    simp [hl]
  · intro h
    unfold cmdWait
    rw [h]
  · intro p hp hf
    obtain ⟨hfin, hps⟩ := cmdWait_started c p os gerrs hp hf
    set c1 := (cmdWait c os gerrs).1 with hc1
    unfold cmdWait
    rw [hps]
    simp [hfin]
  · intro h
    obtain ⟨pid, -, hl, -, -, h1⟩ := cmdStartFallback_ok c spawn h
    rw [h1]
    unfold cmdStartFallback
    simp [hl]
  · intro h
    unfold cmdWaitFallback
    rw [h]
  · intro p hp hf
    obtain ⟨hfin, hps⟩ := cmdWaitFallback_started c p opSt oErr hp hf
    set c1 := (cmdWaitFallback c opSt oErr).1 with hc1
    unfold cmdWaitFallback
    rw [hps]
    simp [hfin]

/-- Witness for C5: a concrete double `Start` reports "already started". -/

theorem c5_witness :
    (cmdStart (cmdStart
        { Path := "/bin/true", Args := ["true"], Stdout := none,
          Stderr := none, Process := none, ProcessState := none,
          lookPathErr := none, finished := false, osCmd := none }
        (.ok 7)).1 (.ok 8)).2 = some (.misuse "exec: already started") :=
  (c5_misuse _ (.ok 7) (.ok 8) (.ok (7, 0)) (.ok (7, 0)) [] [] none none
      none none).1 (by decide)

lemma no_slash_chars {name : String} (hns : containsSlash name = false) :
    ∀ c ∈ name.data, ¬(c = '/') := by
  intro c hc hcs
  rw [containsSlash] at hns
  have hany : name.data.any (fun c => c = '/') = true :=
    List.any_eq_true.mpr ⟨c, hc, by simp [hcs]⟩
  rw [hany] at hns
  simp at hns

lemma filepathBase_eq_self (name : String) (hne : name ≠ "")
    (hns : containsSlash name = false) : filepathBase name = name := by
  have hall := no_slash_chars hns
  unfold filepathBase
  rw [if_neg hne]
  have hdata : name.data ≠ [] := by
    intro h
    apply hne
    cases name with
    | mk d => simp at h; simp [h]
  have hdrop : dropTrailingSlashes name.data = name.data := by
    unfold dropTrailingSlashes
    cases hrev : name.data.reverse with
    | nil => simp at hrev; exact absurd hrev hdata
    | cons a t =>
      have ha : a ∈ name.data := by
        rw [← List.mem_reverse, hrev]
        exact List.mem_cons_self a t
      rw [List.dropWhile_cons, if_neg (by simpa using hall a ha)]
      rw [← hrev, List.reverse_reverse]
  have htake : afterLastSlash name.data = name.data := by
    unfold afterLastSlash
    rw [List.takeWhile_eq_self_iff.mpr ?_, List.reverse_reverse]
    intro x hx
    rw [List.mem_reverse] at hx
    simpa using hall x hx
  rw [hdrop, htake, if_neg hdata]

/-- Claim C6: `Command` never fails — it always returns a spec whose
`Args` head is the given name verbatim; for a bare filename whose
resolution fails, the failure is stored on `lookPathErr` and returned by
the first `Start` (hence by `Run`), with `Path` left as the name; when
resolution succeeds, `Path` is overwritten with the resolved path while
`Args[0]` remains the original name. -/

theorem c6_command (fs : String → Option FileMode) (pathEnv : String)
    (name : String) (args : List String) (spawn : Except Nat Int)
    (os : Except Nat (Int × Nat)) (gerrs : List (Option CopyError)) :
    ((Command fs pathEnv name args).Args = name :: args) ∧
    (name ≠ "" → containsSlash name = false →
      (∀ lp e, lookPath fs pathEnv name = (lp, some e) →
        (Command fs pathEnv name args).lookPathErr = some e ∧
        (Command fs pathEnv name args).Path = name ∧
        (cmdStart (Command fs pathEnv name args) spawn).2 =
          some (.lookupE e) ∧
        (cmdRun (Command fs pathEnv name args) spawn os gerrs).2 =
          some (.lookupE e)) ∧
      (∀ lp, lookPath fs pathEnv name = (lp, none) →
        (Command fs pathEnv name args).Path = lp ∧
        (Command fs pathEnv name args).Args = name :: args)) := by
  constructor
  · unfold Command
    by_cases hb : filepathBase name = name
    · rw [if_pos hb]
      cases hlp : lookPath fs pathEnv name with
      | mk lp e =>
        cases e <;> simp
    · rw [if_neg hb]
  · intro hne hns
    have hb := filepathBase_eq_self name hne hns
    constructor
    · intro lp e hlp
      have hcmd : (Command fs pathEnv name args).lookPathErr = some e ∧
          (Command fs pathEnv name args).Path = name := by
        unfold Command
        rw [if_pos hb, hlp]
        exact ⟨rfl, rfl⟩
      refine ⟨hcmd.1, hcmd.2, ?_, ?_⟩
      · unfold cmdStart
        rw [if_pos (by simp [hcmd.1])]
        simp [hcmd.1]
      · unfold cmdRun
        have hst : (cmdStart (Command fs pathEnv name args) spawn).2 =
            some (.lookupE e) := by
          unfold cmdStart
          rw [if_pos (by simp [hcmd.1])]
          simp [hcmd.1]
        simp [hst]
    · intro lp hlp
      unfold Command
      rw [if_pos hb, hlp]
      exact ⟨rfl, rfl⟩

/-- Witness for C6 on a bare name that resolves nowhere: `Args` keeps the
name and the stored failure surfaces at `Start`. -/

theorem c6_witness :
    (Command (fun _ => none) "" "prog" ["x"]).Args = ["prog", "x"] ∧
    (cmdStart (Command (fun _ => none) "" "prog" ["x"]) (.ok 3)).2 =
      some (.lookupE ⟨"prog", .errNotFound⟩) :=
  ⟨(c6_command (fun _ => none) "" "prog" ["x"] (.ok 3) (.ok (3, 0)) []).1,
   ((c6_command (fun _ => none) "" "prog" ["x"] (.ok 3) (.ok (3, 0)) []).2
      (by decide) (by decide)).1 "" ⟨"prog", .errNotFound⟩ (by decide) |>.2.2.1⟩

lemma and127_eq_mod (w : Nat) : w &&& 127 = w % 128 := by
  have := Nat.and_pow_two_sub_one_eq_mod w 7
  norm_num at this
  exact this

lemma shr8_eq_div (w : Nat) : w >>> 8 = w / 256 := by
  have := Nat.shiftRight_eq_div_pow w 8
  norm_num at this
  exact this

lemma shl8_eq_mul (c : Nat) : c <<< 8 = c * 256 := by
  have := Nat.shiftLeft_eq c 8
  norm_num at this
  exact this

lemma shl8_and127 (c : Nat) : (c <<< 8) &&& 127 = 0 := by
  rw [shl8_eq_mul, and127_eq_mod]
  omega

lemma shl8_shr8 (c : Nat) : (c <<< 8) >>> 8 = c := by
  rw [shl8_eq_mul, shr8_eq_div]
  omega

/-- Claim C7: the decoded exit code equals the process's exit code for a
normal exit (status `code << 8`) and is the sentinel `-1` otherwise; the
rendering distinguishes exactly four terminal shapes — "exit status N",
a signal rendering with a " (core dumped)" note iff a core was dumped, a
stop-signal rendering, and "continued" (the four classes cover every
status, so the "unknown" branch is unreachable); and through `Wait`, an
exit with code N in 1–255 yields an `ExitError` for that status while an
exit with code 0 yields no error. -/

theorem c7_exit_decoding (pid : Int) (w code : Nat)
    (signame : Int → String) (c : Cmd) (p : Process)
    (gerrs : List (Option CopyError)) :
    (psExitCode { pid := pid, status := code <<< 8 } = Int.ofNat code) ∧
    (wsExited w = false → psExitCode { pid := pid, status := w } = -1) ∧
    ((wsExited w || wsSignaled w || wsIsStopped w || wsContinued w) = true) ∧
    (wsExited w = true → psString signame { pid := pid, status := w } =
      "exit status " ++ decimalInt (wsExitStatus w)) ∧
    (wsSignaled w = true → psString signame { pid := pid, status := w } =
      "signal: " ++ (if wsCoreDump w = true
        then signame (wsSignal w) ++ " (core dumped)"
        else signame (wsSignal w))) ∧
    (wsIsStopped w = true → psString signame { pid := pid, status := w } =
      "stop signal: " ++ signame (wsStopSignal w)) ∧
    (wsContinued w = true →
      psString signame { pid := pid, status := w } = "continued") ∧
    (c.Process = some p → c.finished = false → p.Pid > 0 →
      1 ≤ code → code ≤ 255 →
      (cmdWait c (.ok (pid, code <<< 8)) gerrs).2 =
        some (.exitE (some { pid := pid, status := code <<< 8 }))) ∧
    (c.Process = some p → c.finished = false → p.Pid > 0 →
      (cmdWait c (.ok (pid, 0)) []).2 = none) := by
  have hand := and127_eq_mod w
  refine ⟨?_, ?_, ?_, ?_, ?_, ?_, ?_, ?_, ?_⟩
  · unfold psExitCode wsExited wsExitStatus
    simp [shl8_and127, shl8_shr8]
  · intro h
    unfold psExitCode
    rw [h]
    simp
  · unfold wsExited wsSignaled wsIsStopped wsContinued
    simp only [Bool.or_eq_true, Bool.and_eq_true, decide_eq_true_eq,
      ne_eq, decide_not, Bool.not_eq_true', decide_eq_false_iff_not]
    rw [hand]
    omega
  · intro h
    simp only [psString]
    rw [h]
    simp only [if_true]
    by_cases h0 : wsExitStatus w = 0
    · rw [if_pos h0, h0]
      decide
    · rw [if_neg h0]
  · intro h
    have hex : wsExited w = false := by
      unfold wsExited
      unfold wsSignaled at h
      simp only [Bool.and_eq_true, decide_eq_true_eq] at h ⊢
      simp only [decide_eq_false_iff_not]
      exact h.2
    simp only [psString]
    rw [hex, h]
    simp
  · intro h
    have hdec : w &&& 127 = 127 ∧ ¬(w >>> 8 = 17) := by
      unfold wsIsStopped at h
      simpa using h
    have hex : wsExited w = false := by
      unfold wsExited
      simp only [decide_eq_false_iff_not]
      omega
    have hsig : wsSignaled w = false := by
      unfold wsSignaled
      simp [hdec.1]
    simp only [psString]
    rw [hex, hsig, h]
    simp
  · intro h
    have hdec : w &&& 127 = 127 ∧ w >>> 8 = 17 := by
      unfold wsContinued at h
      simpa using h
    have hex : wsExited w = false := by
      unfold wsExited
      simp only [decide_eq_false_iff_not]
      omega
    have hsig : wsSignaled w = false := by
      unfold wsSignaled
      simp [hdec.1]
    have hst : wsIsStopped w = false := by
      unfold wsIsStopped
      simp [hdec.1, hdec.2]
    simp only [psString]
    rw [hex, hsig, hst, h]
    simp
  · intro hp hf hpid h1 h255
    unfold cmdWait
    rw [hp]
    simp only [hf, Bool.false_eq_true, if_false]
    have hw : procWait p (.ok (pid, code <<< 8)) =
        .ok { pid := pid, status := code <<< 8 } := by
      unfold procWait
      rw [if_neg (by omega)]
    rw [hw]
    have hsucc : psSuccess { pid := pid, status := code <<< 8 } = false := by
      unfold psSuccess wsExitStatus
      simp only [shl8_and127, shl8_shr8, decide_eq_false_iff_not]
      simp
      omega
    simp [hsucc]
  · intro hp hf hpid
    unfold cmdWait
    rw [hp]
    simp only [hf, Bool.false_eq_true, if_false]
    have hw : procWait p (.ok (pid, 0)) = .ok { pid := pid, status := 0 } := by
      unfold procWait
      rw [if_neg (by omega)]
    rw [hw]
    have hsucc : psSuccess { pid := pid, status := 0 } = true := by
      unfold psSuccess wsExitStatus
      simp
    simp [hsucc, firstSome]

/-- Witness for C7 at concrete statuses: exit code 42, signal 15, and the
`Wait` outcomes for exit codes 42 and 0. -/

theorem c7_witness :
    psExitCode { pid := (5 : Int), status := 42 <<< 8 } = 42 ∧
    psString (fun _ => "terminated") { pid := (5 : Int), status := 15 } =
      "signal: terminated" ∧
    (cmdWait
        { Path := "/bin/x", Args := ["x"], Stdout := none, Stderr := none,
          Process := some { Pid := 5 }, ProcessState := none,
          lookPathErr := none, finished := false, osCmd := none }
        (.ok (5, 42 <<< 8)) []).2 =
      some (.exitE (some { pid := 5, status := 42 <<< 8 })) ∧
    (cmdWait
        { Path := "/bin/x", Args := ["x"], Stdout := none, Stderr := none,
          Process := some { Pid := 5 }, ProcessState := none,
          lookPathErr := none, finished := false, osCmd := none }
        (.ok (5, 0)) []).2 = none := by
  refine ⟨?_, ?_, ?_, ?_⟩
  · exact (c7_exit_decoding 5 0 42 (fun _ => "terminated")
      { Path := "/bin/x", Args := ["x"], Stdout := none, Stderr := none,
        Process := some { Pid := 5 }, ProcessState := none,
        lookPathErr := none, finished := false, osCmd := none }
      { Pid := 5 } []).1
  · exact (c7_exit_decoding 5 15 42 (fun _ => "terminated")
      { Path := "/bin/x", Args := ["x"], Stdout := none, Stderr := none,
        Process := some { Pid := 5 }, ProcessState := none,
        lookPathErr := none, finished := false, osCmd := none }
      { Pid := 5 } []).2.2.2.2.1 (by decide)
  · exact (c7_exit_decoding 5 0 42 (fun _ => "terminated")
      { Path := "/bin/x", Args := ["x"], Stdout := none, Stderr := none,
        Process := some { Pid := 5 }, ProcessState := none,
        lookPathErr := none, finished := false, osCmd := none }
      { Pid := 5 } []).2.2.2.2.2.2.2.1 rfl rfl (by decide) (by decide) (by decide)
  · exact (c7_exit_decoding 5 0 42 (fun _ => "terminated")
      { Path := "/bin/x", Args := ["x"], Stdout := none, Stderr := none,
        Process := some { Pid := 5 }, ProcessState := none,
        lookPathErr := none, finished := false, osCmd := none }
      { Pid := 5 } []).2.2.2.2.2.2.2.2 rfl rfl (by decide)

/-- Claim C8: `Output` fails immediately when `Stdout` was already set;
otherwise it returns exactly the child's stdout bytes; when the caller
had left `Stderr` unset and the run ends in an `ExitError`, the error's
`Stderr` is populated with the `prefixSuffixSaver` (capacity `32 << 10`)
capture of the child's stderr; when the caller had set `Stderr`, nothing
is populated; and `CombinedOutput` returns the run's error unchanged —
the bounded capture is attached by the output operation only. -/

theorem c8_output (c : Cmd) (spawn : Except Nat Int)
    (os : Except Nat (Int × Nat)) (gerrs : List (Option CopyError))
    (io : RunIO) (combined : List Nat) :
    (c.Stdout.isSome = true →
      cmdOutput c spawn os gerrs io =
        ([], some (.misuse "exec: Stdout already set"), [])) ∧
    (c.Stdout = none → (cmdOutput c spawn os gerrs io).1 = io.stdoutBytes) ∧
    (c.Stdout = none → c.Stderr = none →
      ∀ st, (cmdRun { c with Stdout := some (), Stderr := some () }
          spawn os gerrs).2 = some (.exitE st) →
        cmdOutput c spawn os gerrs io =
          (io.stdoutBytes, some (.exitE st),
            pssBytes (pssWriteAll (pssNew (32 <<< 10)) io.stderrChunks))) ∧
    (c.Stdout = none → c.Stderr.isSome = true →
      (cmdOutput c spawn os gerrs io).2.2 = []) ∧
    (c.Stdout = none → c.Stderr = none →
      (cmdCombinedOutput c spawn os gerrs combined).2 =
        (cmdRun { c with Stdout := some (), Stderr := some () }
          spawn os gerrs).2) := by
  refine ⟨?_, ?_, ?_, ?_, ?_⟩
  · intro h
    unfold cmdOutput
    rw [if_pos h]
  · intro h
    unfold cmdOutput
    rw [if_neg (by simp [h])]
    cases hr : (cmdRun
        { c with Stdout := some (),
                 Stderr := if c.Stderr = none then some () else c.Stderr }
        spawn os gerrs).2 with
    | none => simp [hr]
    | some e =>
      cases e <;> simp [hr]
      by_cases hce : c.Stderr = none <;> simp [hce]
  · intro h hse st hrun
    unfold cmdOutput
    rw [if_neg (by simp [h]), hse]
    simp [hrun]
  · intro h hse
    have hne : ¬(c.Stderr = none) := by
      intro hn; rw [hn] at hse; simp at hse
    unfold cmdOutput
    rw [if_neg (by simp [h])]
    cases hr : (cmdRun
        { c with Stdout := some (),
                 Stderr := if c.Stderr = none then some () else c.Stderr }
        spawn os gerrs).2 with
    | none => simp [hr]
    | some e =>
      cases e <;> simp [hr, hne]
  · intro h hse
    unfold cmdCombinedOutput
    rw [if_neg (by simp [h]), if_neg (by simp [hse])]

/-- Witness for C8: a failing run with unset `Stderr` populates the
capture with the child's stderr bytes. -/

theorem c8_witness :
    cmdOutput
        { Path := "/bin/x", Args := ["x"], Stdout := none, Stderr := none,
          Process := none, ProcessState := none, lookPathErr := none,
          finished := false, osCmd := none }
        (.ok 5) (.ok (5, 256)) [] { stdoutBytes := [1, 2], stderrChunks := [[3, 4]] } =
      ([1, 2], some (.exitE (some { pid := 5, status := 256 })),
        pssBytes (pssWriteAll (pssNew (32 <<< 10)) [[3, 4]])) :=
  ((c8_output _ (.ok 5) (.ok (5, 256)) []
      { stdoutBytes := [1, 2], stderrChunks := [[3, 4]] } []).2.2.1
    rfl rfl (some { pid := 5, status := 256 }) (by decide))

/-- Claim C9: `Success()` holds iff the process exited normally with
exit code 0; in particular a status describing termination by a signal
is never successful. -/

theorem c9_success_iff (st : ProcessState) :
    (psSuccess st = true ↔ psExited st = true ∧ psExitCode st = 0) ∧
    (wsSignaled st.status = true → psSuccess st = false) := by
  obtain ⟨pid, w⟩ := st
  constructor
  · simp only [psSuccess, psExited, psExitCode, wsExited, wsExitStatus]
    by_cases h : w &&& 0x7F = 0 <;> simp [h]
  · simp only [psSuccess, wsSignaled, wsExitStatus]
    intro hsig
    simp only [Bool.and_eq_true, decide_eq_true_eq] at hsig
    simp [hsig.2]

/-- Witness for C9 at the signal-termination status 15. -/

theorem c9_witness :
    psSuccess { pid := (1 : Int), status := 15 } = false :=
  (c9_success_iff { pid := 1, status := 15 }).2 (by decide)

/-- Claim C10: the bounded capture's `Write` is total — for every state
and input it reports the full input length and a nil error, so an
upstream copier can never observe a capture-side error. -/

theorem c10_write_total (w : PrefixSuffixSaver) (p : List Nat) :
    (pssWrite w p).2 = (p.length, none) := rfl

end Spawnexec
